import Mathlib

/-!
Verification of the SeleniumChatGPT interaction engine.

This file gives a shallow embedding, in Lean, of the control logic of the
repository's core automation driver (`SeleniumChatGPT.py`) and of the generic
polling primitives it is built on (`SeleniumDriverHelper.py`), and proves the
specification's claims about them.

Modelling conventions:
* A live element is identified by its locator query; locators that in the
  source are XPath strings are represented by opaque identifiers.
* Helper calls that act on the remote document (clicks, inputs) are
  recorded as events in an explicit event list.  The diagnostic
  `save_debug_screenshot` calls are recorded as reached call sites: the
  helper never defines that method, so Python raises `AttributeError` at the
  attribute lookup and the failure arm stops there, before any click or
  documented raise that follows it in the source.
* The nondeterministic remote document is an explicit environment argument
  (functions from poll instants / iteration indices to observations).
* Python exceptions are represented as explicit result constructors.
-/

namespace SeleniumChatGPT

/-! ## Conversation-turn computation (`chat` / `regenerate`)

Source: `SeleniumChatGPT.py`, `chat` (lines 737-750) and `regenerate`
(lines 600-611).  The last assistant turn index is parsed from the
`data-testid` attribute `conversation-turn-N`; `chat` targets `N + 2`,
`regenerate` targets `N` unchanged; a missing last turn is taken as 1. -/

/-- Python `str.split(sep)` for a one-character separator, written over the
character list so that it is fully executable inside the kernel. -/
def pySplitAux (sep : Char) : List Char → List Char → List String
  | [], acc => [String.mk acc.reverse]
  | c :: cs, acc =>
    if c = sep then String.mk acc.reverse :: pySplitAux sep cs []
    else pySplitAux sep cs (c :: acc)

/-- Python `str.split(sep)` for a one-character separator. -/
def pySplit (sep : Char) (s : String) : List String := pySplitAux sep s.toList []

/-- Python `str.split('-')`. -/
def splitDash (s : String) : List String := pySplit '-' s

/-- Python `int(...)` on the nonnegative digit strings a
`conversation-turn-N` testid produces; any other string raises `ValueError`,
modelled as `none`. -/
def parseNatDigits (s : String) : Option Nat :=
  if s.toList ≠ [] ∧ s.toList.all (fun c => c.isDigit) then
    some (s.toList.foldl (fun n c => n * 10 + (c.toNat - 48)) 0)
  else none

/-- `int(data_testid.split('-')[-1])` guarded by the
`data_testid.startswith('conversation-turn-')` assertion: `none` models the
`AssertionError` / `ValueError` path. -/
def lastTurnOfTestid (s : String) : Option Nat :=
  if "conversation-turn-".toList.isPrefixOf s.toList then
    ((splitDash s).getLast?).bind parseNatDigits
  else
    none

/-- `chat`: `last_turn + 2`, with `last_turn = 1` when no last assistant turn
div is found (`ignore_failure=True` lookup returned `None`). -/
def chatExpectedTurn (lastTurnTestid : Option String) : Option Nat :=
  match lastTurnTestid with
  | some tid => (lastTurnOfTestid tid).map (fun n => n + 2)
  | none => some (1 + 2)

/-- `regenerate`: `expected_turn = last_turn`, unchanged. -/
def regenerateExpectedTurn (lastTurnTestid : String) : Option Nat :=
  lastTurnOfTestid lastTurnTestid

/-! ## The mutual-exclusion wait

Source: `SeleniumDriverHelper.py`, `wait_for_mutually_exclusive_elements`
(lines 146-199).  The page during the wait window is abstracted by a
visibility predicate (what `EC.any_of` of the `visibility_of_element_located`
conditions sees) and a presence predicate (what the `find_element` re-check
sees). -/

/-- Result of `wait_for_mutually_exclusive_elements`.  `found` carries the
returned `(label, element)` pair (an element is identified by its query);
`nonePair` is the `(None, None)` return; the two `raised` constructors are
the re-raised `TimeoutException` and the `RuntimeError` for the impossible
no-element-at-recheck case. -/
inductive MutexResult : Type
  | found (label : String) (element : String)
  | nonePair
  | timeoutRaised
  | noneFoundRaised
  deriving DecidableEq, Repr

/-- `wait_for_mutually_exclusive_elements`: block until any query is visible
(else timeout), then re-resolve each query in declaration order and return the
first that is present. -/
def wait_for_mutually_exclusive_elements
    (visible present : String → Bool)
    (queries labels : List String) (ignore_timeout : Bool) : MutexResult :=
  if queries.any visible then
    match (queries.zip labels).find? (fun ql => present ql.1) with
    | some ql => .found ql.2 ql.1
    | none => .noneFoundRaised
  else
    if ignore_timeout then .nonePair else .timeoutRaised

/-- First query (with its label) of the zipped list that is present. -/
theorem find_zip_first (present : String → Bool) :
    ∀ (queries labels : List String) (q l : String),
      (queries.zip labels).find? (fun ql => present ql.1) = some (q, l) →
      ∃ i, queries.get? i = some q ∧ labels.get? i = some l ∧ present q = true ∧
        ∀ j, j < i → ∀ q', queries.get? j = some q' → (labels.get? j).isSome →
          present q' = false := by
  intro queries
  induction queries with
  | nil => intro labels q l h; simp [List.find?] at h
  | cons x xs ih =>
    intro labels q l h
    cases labels with
    | nil => simp [List.find?] at h
    | cons y ys =>
      rw [List.zip_cons_cons, List.find?] at h
      by_cases hx : present x = true
      · simp only [hx] at h
        injection h with h
        injection h with h1 h2
        subst h1; subst h2
        exact ⟨0, rfl, rfl, hx, fun j hj => absurd hj (Nat.not_lt_zero j)⟩
      · simp only [Bool.not_eq_true] at hx
        simp only [hx] at h
        obtain ⟨i, hq, hl, hp, hmin⟩ := ih ys q l h
        refine ⟨i + 1, hq, hl, hp, ?_⟩
        intro j hj q' hq' hl'
        cases j with
        | zero =>
          simp only [List.get?] at hq'
          injection hq' with hq'
          subst hq'
          exact hx
        | succ j' =>
          exact hmin j' (Nat.lt_of_succ_lt_succ hj) q' hq' hl'

/-! ## Generation lifecycle loop (`chat` lines 766-838, `regenerate` lines
620-692; the two loops are textually identical)

Each iteration resolves `wait_for_mutually_exclusive_elements` over the two
active queries (the specified-turn inner div, labelled `NormalMessage`, and
the error-regenerate button, labelled `RegenerateButton`; the error-message
query is commented out in the source), then branches.  One `GenObs` is what
the remote document shows during one iteration. -/

/-- Which of the two waited-on queries resolves in an iteration;
`waitTimeout` is the `TimeoutException` (ignore_timeout is left False). -/
inductive GenSignal : Type
  | normalMessage
  | regenerateButton
  | waitTimeout
  deriving DecidableEq, Repr

/-- One iteration's observations: the wait outcome, whether the stop button
disappeared within its 180s bound, and whether the regenerate button /
error-message paragraph are present at the post-completion re-check. -/
structure GenObs : Type where
  wait : GenSignal
  stopVanished : Bool
  regenPresent : Bool
  errorPresent : Bool
  deriving DecidableEq, Repr

/-- Actions the loop body performs against the document, plus the reached
diagnostic call sites.  `snapshotCall label` records that execution reached
`self._helper.save_debug_screenshot(label)`; the helper never defines that
method, so the attribute lookup raises `AttributeError` there and nothing
later in the same arm runs.  `regenClick` is the `regenerate_button.click()`
that follows a snapshot call in the source; no execution path reaches it. -/
inductive GenEvent : Type
  | scrollClick
  | regenClick
  | snapshotCall (label : String)
  deriving DecidableEq, Repr

/-- Terminal outcome of the loop.  `generationError` and `exhausted` are the
documented raises (`chat` lines 811 / 838, `regenerate` lines 665 / 692);
each is preceded in the source by a snapshot call, so the runs that would
reach them end in `attributeErrorRaised` instead. -/
inductive GenResult : Type
  | answer
  | generationError
  | stopTimeoutRaised
  | waitTimeoutRaised
  | exhausted
  | attributeErrorRaised
  deriving DecidableEq, Repr

/-- One iteration of the generation loop body: `none` means the Python
`continue`, `some r` ends the loop (`break` towards extraction, or a raise).
Every failure arm reaches a `save_debug_screenshot` call first (lines
800 / 810 / 828 in `chat`) and dies with `AttributeError` there, before its
regenerate click or documented raise. -/
def genStep (o : GenObs) : List GenEvent × Option GenResult :=
  match o.wait with
  | .waitTimeout => ([], some .waitTimeoutRaised)
  | .regenerateButton =>
      ([.snapshotCall "RegenerateButton"], some .attributeErrorRaised)
  | .normalMessage =>
      if o.stopVanished then
        if o.regenPresent then
          ([.scrollClick, .snapshotCall "RegenerateButton"],
            some .attributeErrorRaised)
        else if o.errorPresent then
          ([.scrollClick, .snapshotCall "ConversationErrorMessage-2"],
            some .attributeErrorRaised)
        else
          ([.scrollClick], some .answer)
      else
        ([.scrollClick], some .stopTimeoutRaised)

/-- The `for ... else` loop: fuel exhaustion is the `else` arm, whose own
snapshot call (line 837) dies with `AttributeError` before the documented
`RuntimeError("Regenerate failed. Max retries meet.")`. -/
def genLoopAux (env : Nat → GenObs) : Nat → Nat → List GenEvent × GenResult
  | _, 0 => ([.snapshotCall "MaxRegenerateRetriesMeet"], .attributeErrorRaised)
  | i, fuel + 1 =>
    match genStep (env i) with
    | (evs, some r) => (evs, r)
    | (evs, none) =>
      let rest := genLoopAux env (i + 1) fuel
      (evs ++ rest.1, rest.2)

/-- `max_tries = 5` in both `chat` and `regenerate`. -/
def genMaxTries : Nat := 5

/-- `timeout_duration=180` passed to the mutual-exclusion wait (and to the
stop-button disappearance wait). -/
def genWaitTimeoutSecs : Nat := 180

/-- The generation loop as run by `chat` / `regenerate`. -/
def chatGenLoop (env : Nat → GenObs) : List GenEvent × GenResult :=
  genLoopAux env 0 genMaxTries

/-- The labels of the queries actually passed to the mutual-exclusion wait in
the generation loop (the `ErrorMessage` entry is commented out in the
source). -/
def chatGenWaitLabels : List String := ["NormalMessage", "RegenerateButton"]

/-- Environment for the scenario claimed in C5: silent regenerate affordance
on the first two iterations, clean normal completion on the third. -/
def envSilentTwice : Nat → GenObs := fun i =>
  if i < 2 then ⟨.regenerateButton, true, false, false⟩
  else ⟨.normalMessage, true, false, false⟩

/-- C1: for a successful `chat(question)` call the targeted assistant turn is
the last observed turn plus 2, with baseline 1 (hence target 3) when no prior
assistant turn exists; for a successful `regenerate()` call the targeted turn
equals the existing last assistant turn, unchanged. -/
theorem chat_regenerate_expected_turn :
    chatExpectedTurn none = some 3 ∧
    (∀ tid n, lastTurnOfTestid tid = some n →
      chatExpectedTurn (some tid) = some (n + 2)) ∧
    (∀ tid n, lastTurnOfTestid tid = some n →
      regenerateExpectedTurn tid = some n) := by
  refine ⟨rfl, ?_, ?_⟩
  · intro tid n h
    simp [chatExpectedTurn, h]
  · intro tid n h
    exact h

/-- Witness for C1 at the concrete testid `conversation-turn-5`. -/
theorem chat_regenerate_expected_turn_witness :
    lastTurnOfTestid "conversation-turn-5" = some 5 ∧
    chatExpectedTurn (some "conversation-turn-5") = some 7 ∧
    regenerateExpectedTurn "conversation-turn-5" = some 5 := by
  refine ⟨by decide, ?_, ?_⟩
  · exact chat_regenerate_expected_turn.2.1 "conversation-turn-5" 5 (by decide)
  · exact chat_regenerate_expected_turn.2.2 "conversation-turn-5" 5 (by decide)

/-- C3: `wait_for_mutually_exclusive_elements` returns at most one
`(label, element)` pair; when at least one query is visible the returned label
is the first, in declaration order, whose query resolves at the re-check;
`(None, None)` comes back exactly on an ignored timeout; a non-ignored timeout
raises. -/
theorem wait_mutex_spec (visible present : String → Bool)
    (queries labels : List String) (ign : Bool) :
    (∀ l₁ e₁ l₂ e₂,
      wait_for_mutually_exclusive_elements visible present queries labels ign
        = .found l₁ e₁ →
      wait_for_mutually_exclusive_elements visible present queries labels ign
        = .found l₂ e₂ → l₁ = l₂ ∧ e₁ = e₂) ∧
    (∀ l e, queries.any visible = true →
      wait_for_mutually_exclusive_elements visible present queries labels ign
        = .found l e →
      ∃ i, queries.get? i = some e ∧ labels.get? i = some l ∧
        present e = true ∧
        ∀ j, j < i → ∀ q', queries.get? j = some q' →
          (labels.get? j).isSome → present q' = false) ∧
    (wait_for_mutually_exclusive_elements visible present queries labels ign
        = .nonePair ↔ queries.any visible = false ∧ ign = true) ∧
    (queries.any visible = false → ign = false →
      wait_for_mutually_exclusive_elements visible present queries labels ign
        = .timeoutRaised) := by
  refine ⟨?_, ?_, ?_, ?_⟩
  · intro l₁ e₁ l₂ e₂ h₁ h₂
    rw [h₁] at h₂
    injection h₂ with a b
    exact ⟨a, b⟩
  · intro l e hvis hfound
    unfold wait_for_mutually_exclusive_elements at hfound
    rw [hvis] at hfound
    simp only [if_true] at hfound
    cases hfind : (queries.zip labels).find? (fun ql => present ql.1) with
    | none => rw [hfind] at hfound; exact absurd hfound (by simp)
    | some ql =>
      rw [hfind] at hfound
      injection hfound with hl he
      obtain ⟨q₀, l₀⟩ := ql
      subst hl; subst he
      exact find_zip_first present queries labels q₀ l₀ hfind
  · unfold wait_for_mutually_exclusive_elements
    cases hvis : queries.any visible with
    | true =>
      simp only [if_true]
      constructor
      · intro h
        cases hfind : (queries.zip labels).find? (fun ql => present ql.1) with
        | none => rw [hfind] at h; exact absurd h (by simp)
        | some ql => rw [hfind] at h; exact absurd h (by simp)
      · rintro ⟨h, _⟩; exact absurd h (by simp)
    | false =>
      simp only [Bool.false_eq_true, if_false]
      cases ign with
      | true => simp
      | false => simp
  · intro hvis hig
    unfold wait_for_mutually_exclusive_elements
    rw [hvis, hig]
    simp

/-- Witness for C3: two queries, only the second visible and present; the wait
returns that one pair. -/
theorem wait_mutex_spec_witness :
    ∃ i, (["qa", "qb"] : List String).get? i = some "qb" ∧
      (["LA", "LB"] : List String).get? i = some "LB" ∧
      (fun q => q == "qb") "qb" = true ∧
      ∀ j, j < i → ∀ q', (["qa", "qb"] : List String).get? j = some q' →
        ((["LA", "LB"] : List String).get? j).isSome →
        (fun q => q == "qb") q' = false :=
  (wait_mutex_spec (fun q => q == "qb") (fun q => q == "qb")
      ["qa", "qb"] ["LA", "LB"] false).2.1 "LB" "qb" (by decide) (by decide)

/-- C5 (code bug): the loop bound is 5 and the wait bound 180s as claimed,
but the silent-regenerate branch reaches the `save_debug_screenshot` call
before `regenerate_button.click()` and dies with `AttributeError` at the
missing method; on the claimed {silent, silent, normal} sequence the run ends
on the first iteration with zero regenerate clicks and no answer, and the
exhaustion arm likewise dies at its own snapshot call before the documented
max-retries raise. -/
theorem gen_loop_silent_regenerate_bug :
    (genMaxTries = 5 ∧ genWaitTimeoutSecs = 180) ∧
    (∀ sv rp ep : Bool, genStep ⟨.regenerateButton, sv, rp, ep⟩
      = ([.snapshotCall "RegenerateButton"], some .attributeErrorRaised)) ∧
    chatGenLoop envSilentTwice
      = ([.snapshotCall "RegenerateButton"], .attributeErrorRaised) ∧
    GenEvent.regenClick ∉ (chatGenLoop envSilentTwice).1 ∧
    (chatGenLoop envSilentTwice).2 ≠ .answer ∧
    genLoopAux envSilentTwice 0 0
      = ([.snapshotCall "MaxRegenerateRetriesMeet"], .attributeErrorRaised) := by
  refine ⟨⟨rfl, rfl⟩, fun sv rp ep => rfl, by decide, by decide, by decide,
    rfl⟩

/-- Environment for the C6 counterexample: on the first iteration the message
completes with both the error banner and the regenerate affordance present;
afterwards clean normal completion. -/
def envBannerWithRegen : Nat → GenObs := fun i =>
  if i = 0 then ⟨.normalMessage, true, true, true⟩
  else ⟨.normalMessage, true, false, false⟩

/-- C6 counterexample: the generation wait covers two signals, not three (the
error-banner query is commented out of the wait), and on an iteration where
the error banner appears (together with the regenerate affordance) the loop
neither captures a snapshot nor raises the fatal generation error: it dies
with `AttributeError` at the missing snapshot method. -/
theorem gen_loop_error_banner_counterexample :
    chatGenWaitLabels.length ≠ 3 ∧
    (envBannerWithRegen 0).errorPresent = true ∧
    (chatGenLoop envBannerWithRegen).2 = .attributeErrorRaised ∧
    (chatGenLoop envBannerWithRegen).2 ≠ .generationError := by
  refine ⟨by decide, rfl, by decide, by decide⟩

/-- C6 amended: the wait covers exactly the two signals `NormalMessage` and
`RegenerateButton`; the error banner is checked only inside the
normal-message branch after the stop control disappears and only when no
regenerate affordance is present, and that branch reaches the diagnostic
snapshot call, which fails attribute lookup on the helper, so the iteration
ends with an `AttributeError` before the documented fatal generation error;
when the regenerate affordance is present the banner check is skipped and the
snapshot-then-click path is taken instead, likewise ending with an
`AttributeError` before any regenerate click. -/
theorem gen_loop_error_banner_spec :
    chatGenWaitLabels = ["NormalMessage", "RegenerateButton"] ∧
    (∀ rp : Bool, genStep ⟨.normalMessage, true, rp, true⟩
      = if rp then
          ([.scrollClick, .snapshotCall "RegenerateButton"],
            some .attributeErrorRaised)
        else
          ([.scrollClick, .snapshotCall "ConversationErrorMessage-2"],
            some .attributeErrorRaised)) ∧
    GenEvent.regenClick ∉ (chatGenLoop envBannerWithRegen).1 ∧
    (chatGenLoop envBannerWithRegen).2 ≠ .generationError := by
  refine ⟨rfl, ?_, by decide, by decide⟩
  intro rp
  cases rp <;> rfl

/-! ## Login retry wrapper

Source: the `tenacity.retry` decorator on `_login` (`SeleniumChatGPT.py`
lines 322-326): `stop=stop_after_attempt(5)`, `wait=wait_fixed(30)`,
`retry=retry_if_exception_message(match='Oops')`.  A `_login` attempt is
abstracted as its outcome: `none` for success, `some msg` for an exception
with message `msg`. -/

/-- `retry_if_exception_message(match='Oops')`: `re.match` anchors the plain
pattern at the start of the exception message. -/
def oopsMatches (msg : String) : Bool := "Oops".toList.isPrefixOf msg.toList

/-- `stop_after_attempt(5)`. -/
def loginMaxAttempts : Nat := 5

/-- `wait_fixed(30)`. -/
def loginRetryWaitSecs : Nat := 30

/-- Terminal outcome of the retried `_login`: success, the `RetryError`
raised when the budget is exhausted (the reported login failure), or an
immediately propagated non-matching exception. -/
inductive LoginRunResult : Type
  | ok (attempts : Nat) (sleeps : List Nat)
  | retryError (attempts : Nat) (sleeps : List Nat)
  | propagated (msg : String) (attempts : Nat) (sleeps : List Nat)
  deriving DecidableEq, Repr

/-- The tenacity loop: attempt `k`, and on a matching exception sleep `wait`
seconds and retry unless `maxA` attempts have been made.  `fuel` only bounds
the recursion and is chosen so that it never runs out before the
`stop_after_attempt` check. -/
def tenacityGo (att : Nat → Option String) (maxA wait : Nat) :
    Nat → Nat → List Nat → LoginRunResult
  | k, 0, sleeps => .retryError k sleeps
  | k, fuel + 1, sleeps =>
    match att k with
    | none => .ok k sleeps
    | some msg =>
      if oopsMatches msg then
        if maxA ≤ k then .retryError k sleeps
        else tenacityGo att maxA wait (k + 1) fuel (sleeps ++ [wait])
      else .propagated msg k sleeps

/-- `_login` as wrapped by the decorator. -/
def loginWithRetry (att : Nat → Option String) : LoginRunResult :=
  tenacityGo att loginMaxAttempts loginRetryWaitSecs 1 loginMaxAttempts []

/-- Number of `_login` attempts the run performed. -/
def attemptsOf : LoginRunResult → Nat
  | .ok k _ => k
  | .retryError k _ => k
  | .propagated _ k _ => k

/-- The sleeps performed between attempts. -/
def sleepsOf : LoginRunResult → List Nat
  | .ok _ s => s
  | .retryError _ s => s
  | .propagated _ _ s => s

/-- The attempt counter never exceeds `max k maxA`. -/
theorem tenacityGo_attempts_le (att : Nat → Option String) (maxA wait : Nat) :
    ∀ fuel k s, attemptsOf (tenacityGo att maxA wait k fuel s) ≤ max k maxA := by
  intro fuel
  induction fuel with
  | zero =>
    intro k s
    simp [tenacityGo, attemptsOf]
  | succ n ih =>
    intro k s
    unfold tenacityGo
    cases att k with
    | none => simp [attemptsOf]
    | some msg =>
      by_cases hm : oopsMatches msg = true
      · simp only [hm, if_true]
        by_cases hk : maxA ≤ k
        · simp [hk, attemptsOf]
        · simp only [hk, if_false]
          have := ih (k + 1) (s ++ [wait])
          omega
      · simp only [Bool.not_eq_true] at hm
        simp [hm, attemptsOf]

/-- Every sleep the loop performs lasts `wait` seconds. -/
theorem tenacityGo_sleeps_fixed (att : Nat → Option String) (maxA wait : Nat) :
    ∀ fuel k s, (∀ x ∈ s, x = wait) →
      ∀ x ∈ sleepsOf (tenacityGo att maxA wait k fuel s), x = wait := by
  intro fuel
  induction fuel with
  | zero =>
    intro k s hs
    simpa [tenacityGo, sleepsOf] using hs
  | succ n ih =>
    intro k s hs
    unfold tenacityGo
    cases att k with
    | none => simpa [sleepsOf] using hs
    | some msg =>
      by_cases hm : oopsMatches msg = true
      · simp only [hm, if_true]
        by_cases hk : maxA ≤ k
        · simpa [hk, sleepsOf] using hs
        · simp only [hk, if_false]
          refine ih (k + 1) (s ++ [wait]) ?_
          intro x hx
          rcases List.mem_append.mp hx with h | h
          · exact hs x h
          · simpa using h
      · simp only [Bool.not_eq_true] at hm
        simpa [hm, sleepsOf] using hs

/-- A propagated exception came from the very attempt the run ended on, and
did not match the transient signature. -/
theorem tenacityGo_propagated (att : Nat → Option String) (maxA wait : Nat) :
    ∀ fuel k s msg k' s',
      tenacityGo att maxA wait k fuel s = .propagated msg k' s' →
      att k' = some msg ∧ oopsMatches msg = false := by
  intro fuel
  induction fuel with
  | zero =>
    intro k s msg k' s' h
    exact absurd h (by simp [tenacityGo])
  | succ n ih =>
    intro k s msg k' s' h
    unfold tenacityGo at h
    cases ha : att k with
    | none => rw [ha] at h; exact absurd h (by simp)
    | some m =>
      rw [ha] at h
      by_cases hm : oopsMatches m = true
      · simp only [hm, if_true] at h
        by_cases hk : maxA ≤ k
        · simp only [hk, if_true] at h
          exact absurd h (by simp)
        · simp only [hk, if_false] at h
          exact ih (k + 1) (s ++ [wait]) msg k' s' h
      · simp only [Bool.not_eq_true] at hm
        simp only [hm] at h
        simp only [Bool.false_eq_true, if_false] at h
        injection h with h1 h2 h3
        subst h1; subst h2; subst h3
        exact ⟨ha, hm⟩

/-- C4: login is retried at most 5 times with fixed 30s spacing; a retry
fires only on the transient `Oops` signature and any other exception
propagates immediately; `Oops` on attempts 1-2 with success on attempt 3
succeeds within the budget; `Oops` on all 5 attempts ends in the terminal
retry failure with no 6th attempt. -/
theorem login_retry_spec :
    (∀ att, attemptsOf (loginWithRetry att) ≤ 5) ∧
    (∀ att, ∀ x ∈ sleepsOf (loginWithRetry att), x = 30) ∧
    (∀ att msg k s, loginWithRetry att = .propagated msg k s →
      att k = some msg ∧ oopsMatches msg = false) ∧
    (loginWithRetry (fun k => if k ≤ 2 then some "Oops" else none)
      = .ok 3 [30, 30]) ∧
    (loginWithRetry (fun _ => some "Oops")
      = .retryError 5 [30, 30, 30, 30]) := by
  refine ⟨?_, ?_, ?_, by decide, by decide⟩
  · intro att
    have := tenacityGo_attempts_le att loginMaxAttempts loginRetryWaitSecs
      loginMaxAttempts 1 []
    simpa [loginWithRetry, loginMaxAttempts] using this
  · intro att
    exact tenacityGo_sleeps_fixed att loginMaxAttempts loginRetryWaitSecs
      loginMaxAttempts 1 [] (by simp)
  · intro att msg k s h
    exact tenacityGo_propagated att loginMaxAttempts loginRetryWaitSecs
      loginMaxAttempts 1 [] msg k s h

/-- Witness for C4: a non-matching failure message propagates from the first
attempt with no retry. -/
theorem login_retry_spec_witness :
    (fun _ : Nat => (some "boom" : Option String)) 1 = some "boom" ∧
      oopsMatches "boom" = false :=
  login_retry_spec.2.2.1 (fun _ => some "boom") "boom" 1 [] (by decide)

/-! ## The `_input` helper and the `chat` entry mode

Source: `SeleniumDriverHelper._input` (lines 214-256) and the call in
`chat` (lines 752-759).  `_input` declares
`input_method: Literal["whole", "split_lines", "javascript"]` and branches on
it with a `match` that has no wildcard arm: an unknown mode performs nothing,
after which the function still logs success and returns `True`. -/

/-- The entry modes `_input` implements (its declared `Literal` type). -/
def inputMethodNames : List String := ["whole", "split_lines", "javascript"]

/-- Key/script actions `_input` can perform on the widget. -/
inductive InputAction : Type
  | sendKeys (text : String)
  | clickElement
  | jsFocus
  | jsSetValue (text : String)
  deriving DecidableEq, Repr

/-- The `split_lines` mode: send each line, with a newline keystroke between
consecutive lines. -/
def splitLinesActions (text : String) : List InputAction :=
  ((pySplit '\n' text).map InputAction.sendKeys).intersperse (.sendKeys "\n")

/-- `_input(element, text, input_method)`: the performed actions and the
returned bool.  An `input_method` outside the three implemented arms falls
through the Python `match` doing nothing, yet the function still returns
`True`. -/
def inputHelper (elementPresent : Bool) (text : String)
    (input_method : String) : List InputAction × Bool :=
  if elementPresent then
    (if input_method = "whole" then [.sendKeys text]
      else if input_method = "split_lines" then splitLinesActions text
      else if input_method = "javascript" then
        [.clickElement, .jsFocus, .jsSetValue text]
      else [],
      true)
  else ([], false)

/-- The literal `input_method='copy_paste'` that `chat` passes to
`find_then_input_or_fail` (`SeleniumChatGPT.py` line 757). -/
def chatInputMethod : String := "copy_paste"

/-- C2 (code bug): `chat` requests the unimplemented mode `copy_paste`, which
is outside `_input`'s declared `Literal` type; on a present element `_input`
then performs no entry action at all yet still returns `True`, whereas every
supported mode performs at least one entry action on nonempty text. -/
theorem chat_input_copy_paste_bug :
    inputMethodNames.contains chatInputMethod = false ∧
    (∀ text, inputHelper true text chatInputMethod = ([], true)) ∧
    (∀ text, inputHelper true text "whole" = ([.sendKeys text], true)) ∧
    inputHelper true "Hello!" "split_lines" = ([.sendKeys "Hello!"], true) ∧
    (∀ text, inputHelper true text "javascript"
      = ([.clickElement, .jsFocus, .jsSetValue text], true)) := by
  refine ⟨by decide, ?_, ?_, by decide, ?_⟩
  · intro text; rfl
  · intro text; rfl
  · intro text; rfl

/-! ## Login entry classification

Source: `SeleniumChatGPT._login`, lines 339-353.  The two login affordances
are probed with `find_then_click_or_fail(..., ignore_failure=True)`; when
neither is present the prompt textarea decides between "already logged in"
and the fatal unknown-status branch. -/

/-- The three presence observations the entry check makes. -/
structure EntryPage : Type where
  welcomeLoginPresent : Bool
  loginButtonPresent : Bool
  promptTextareaPresent : Bool
  deriving DecidableEq, Repr

/-- Helper calls made by the login state machine; `snapshotCall` records a
reached `save_debug_screenshot` call site, where attribute lookup of the
missing method raises `AttributeError`. -/
inductive LoginEv : Type
  | clickWelcomeLogin
  | clickTopLogin
  | clickDontShowAgain
  | clickYes
  | clickCloudflareVerify
  | snapshotCall (label : String)
  deriving DecidableEq, Repr

/-- Outcome of the entry check.  `statusUnknownRaised` is the documented
`RuntimeError('Login status check failed.')` at line 352; the snapshot call
on line 351 dies first, so no run reaches it. -/
inductive EntryResult : Type
  | alreadyLoggedIn
  | proceedToLogin
  | statusUnknownRaised
  | attributeErrorRaised
  deriving DecidableEq, Repr

/-- Entry of `_login`: try to click the welcome login button, then the
top-right login button; with neither present, a present prompt textarea means
already authenticated, and an absent one reaches the
`save_debug_screenshot('LoginStatus-Error')` call (line 351), which raises
`AttributeError` before the documented status-unknown raise on line 352. -/
def loginEntry (pg : EntryPage) : List LoginEv × EntryResult :=
  if pg.welcomeLoginPresent then ([.clickWelcomeLogin], .proceedToLogin)
  else if pg.loginButtonPresent then ([.clickTopLogin], .proceedToLogin)
  else if pg.promptTextareaPresent then ([], .alreadyLoggedIn)
  else ([.snapshotCall "LoginStatus-Error"], .attributeErrorRaised)

/-- C8 (code bug): with neither login affordance present, a present input
surface is treated as already authenticated with no login sub-flow and no
clicks, as claimed; with the input surface also absent the branch reaches the
snapshot call and dies with `AttributeError` — no snapshot is captured and
the documented login-status-unknown error is never raised, on this or any
entry page. -/
theorem login_entry_bug :
    (∀ b : Bool, loginEntry ⟨false, false, b⟩
      = if b then ([], .alreadyLoggedIn)
        else ([.snapshotCall "LoginStatus-Error"], .attributeErrorRaised)) ∧
    (∀ pg : EntryPage, (loginEntry pg).2 ≠ .statusUnknownRaised) := by
  constructor
  · intro b
    cases b <;> rfl
  · intro pg
    obtain ⟨a, b, c⟩ := pg
    cases a <;> cases b <;> cases c <;> decide

/-! ## Inner login loop

Source: `SeleniumChatGPT._login`, lines 372-434: a bounded loop
(`max_tries = 10`) over a four-signal mutual-exclusion wait. -/

/-- Which of the four waited-on login signals resolved; `noneOfThem` is the
`(None, None)` pair. -/
inductive LoginSig : Type
  | staySignedIn
  | oopsError
  | cloudflareVerification
  | promptTextarea
  | noneOfThem
  deriving DecidableEq, Repr

/-- Terminal outcome of the inner login loop.  The documented raises —
`RuntimeError('Oops')` (line 411), label-not-found (line 429) and the
max-retries `LoginFailed` (line 434) — are each preceded by a snapshot call
in the source, so the runs that would reach them end in
`attributeErrorRaised` instead. -/
inductive LoginLoopResult : Type
  | success
  | oopsRaised
  | labelNotFoundRaised
  | loginFailedRaised
  | attributeErrorRaised
  deriving DecidableEq, Repr

/-- One iteration of the inner login loop.  The `StaySignedIn` arm is guarded
by `login_type == 'Microsoft'`; when the guard fails the Python `match` falls
through every arm and the loop just continues.  The `OopsError` and
`(None, None)` arms reach `save_debug_screenshot` (lines 409 / 428) and die
with `AttributeError` before their documented raises. -/
def loginLoopStep (loginType : String) (sig : LoginSig) :
    List LoginEv × Option LoginLoopResult :=
  match sig with
  | .staySignedIn =>
    if loginType = "Microsoft" then ([.clickDontShowAgain, .clickYes], none)
    else ([], none)
  | .oopsError =>
    ([.snapshotCall (loginType ++ "-OopsError")], some .attributeErrorRaised)
  | .cloudflareVerification => ([.clickCloudflareVerify], none)
  | .promptTextarea => ([], some .success)
  | .noneOfThem =>
    ([.snapshotCall "NoLabelFound"], some .attributeErrorRaised)

/-- The `for ... else` inner loop; the exhaustion arm reaches its own
snapshot call (line 433) and dies with `AttributeError` before the documented
`RuntimeError("Login failed. Max retries meet.")`. -/
def loginLoopAux (loginType : String) (env : Nat → LoginSig) :
    Nat → Nat → List LoginEv × LoginLoopResult
  | _, 0 => ([.snapshotCall "MaxLoginRetriesMeet"], .attributeErrorRaised)
  | i, fuel + 1 =>
    match loginLoopStep loginType (env i) with
    | (evs, some r) => (evs, r)
    | (evs, none) =>
      let rest := loginLoopAux loginType env (i + 1) fuel
      (evs ++ rest.1, rest.2)

/-- `max_tries = 10` in `_login`. -/
def loginMaxTries : Nat := 10

/-- The inner login loop as run by `_login`. -/
def loginLoop (loginType : String) (env : Nat → LoginSig) :
    List LoginEv × LoginLoopResult :=
  loginLoopAux loginType env 0 loginMaxTries

/-! ## The helper's method table and the snapshot calls

`SeleniumDriverHelper` (lines 19-396) defines exactly the methods below;
`SeleniumChatGPT` nevertheless calls `self._helper.save_debug_screenshot(...)`
on every diagnostic branch, so that call can only fail Python attribute
lookup. -/

/-- Every method `class SeleniumDriverHelper` defines. -/
def seleniumDriverHelperMethods : List String :=
  ["__init__", "find_element_or_fail", "wait_until_appear",
    "wait_until_disappear", "wait_for_mutually_exclusive_elements",
    "_click", "_input", "wait_until_appear_then_click",
    "wait_until_appear_then_input", "find_then_click_or_fail",
    "find_then_input_or_fail", "check_element_stability"]

/-- Python attribute lookup of a method on a `SeleniumDriverHelper`
instance. -/
def helperHasMethod (name : String) : Bool :=
  seleniumDriverHelperMethods.contains name

/-- The method name every diagnostic branch calls on the helper. -/
def snapshotMethodName : String := "save_debug_screenshot"

/-- The helper method behind each generation-loop event; a snapshot request
is a call of `save_debug_screenshot`, the best-effort scroll click goes
through `find_then_click_or_fail`, and the regenerate click is a direct
`WebElement.click()`. -/
def genEventMethod : GenEvent → Option String
  | .scrollClick => some "find_then_click_or_fail"
  | .regenClick => none
  | .snapshotCall _ => some snapshotMethodName

/-- The helper method behind each login-machine event. -/
def loginEventMethod : LoginEv → Option String
  | .snapshotCall _ => some snapshotMethodName
  | _ => some "find_then_click_or_fail"

/-- C10: every diagnostic branch (login status unknown, Oops, no label found,
login retry exhaustion, and the generation loop's regenerate / error /
exhaustion branches) reaches a `save_debug_screenshot` call; that name is not
among the methods `SeleniumDriverHelper` defines, so each of these branches
ends in the attribute-lookup failure rather than, or before, its documented
raise. -/
theorem snapshot_method_missing :
    helperHasMethod snapshotMethodName = false ∧
    (∀ label, genEventMethod (.snapshotCall label) = some snapshotMethodName) ∧
    (∀ label, loginEventMethod (.snapshotCall label) = some snapshotMethodName) ∧
    loginEntry ⟨false, false, false⟩
      = ([.snapshotCall "LoginStatus-Error"], .attributeErrorRaised) ∧
    loginLoopStep "OpenAI" .oopsError
      = ([.snapshotCall "OpenAI-OopsError"], some .attributeErrorRaised) ∧
    loginLoopStep "Microsoft" .noneOfThem
      = ([.snapshotCall "NoLabelFound"], some .attributeErrorRaised) ∧
    (loginLoop "OpenAI" fun _ => .staySignedIn)
      = ([.snapshotCall "MaxLoginRetriesMeet"], .attributeErrorRaised) ∧
    (∀ sv rp ep : Bool, genStep ⟨.regenerateButton, sv, rp, ep⟩
      = ([.snapshotCall "RegenerateButton"], some .attributeErrorRaised)) ∧
    genStep ⟨.normalMessage, true, true, false⟩
      = ([.scrollClick, .snapshotCall "RegenerateButton"],
          some .attributeErrorRaised) ∧
    genStep ⟨.normalMessage, true, false, true⟩
      = ([.scrollClick, .snapshotCall "ConversationErrorMessage-2"],
          some .attributeErrorRaised) ∧
    genLoopAux (fun _ => ⟨.normalMessage, true, false, false⟩) 0 0
      = ([.snapshotCall "MaxRegenerateRetriesMeet"], .attributeErrorRaised) := by
  refine ⟨by decide, fun label => rfl, fun label => rfl, by decide, by decide,
    by decide, by decide, fun sv rp ep => rfl, by decide, by decide, rfl⟩

/-! ## `switch_model`

Source: `SeleniumChatGPT.switch_model` (lines 517-552) and
`_get_current_model` (lines 470-480). -/

/-- The model names `_get_current_model` accepts. -/
def knownModels : List String := ["GPT-4o", "GPT-4o mini", "GPT-4"]

/-- `_get_current_model`: prepend `GPT-` to the displayed span text and
assert membership in the known set (`none` is the `AssertionError`). -/
def getCurrentModel (displayed : String) : Option String :=
  let model := "GPT-" ++ displayed
  if knownModels.contains model then some model else none

/-- Menu interactions `switch_model` can perform. -/
inductive SMEvent : Type
  | menuOpenClick
  | menuItemClick (name : String)
  deriving DecidableEq, Repr

/-- Outcome of `switch_model`. -/
inductive SMResult : Type
  | okNoChange
  | okSwitched
  | invalidModelRaised
  | unexpectedModelRaised
  deriving DecidableEq, Repr

/-- `switch_model(target)`: read the current model; no-op when it already
matches; otherwise open the menu, enumerate the options, and either raise the
invalid-model assertion (before any model-selection click) or click the
requested item. -/
def switch_model (displayed : String) (menuOptions : List String)
    (target : String) : List SMEvent × SMResult :=
  match getCurrentModel displayed with
  | none => ([], .unexpectedModelRaised)
  | some current =>
    if target = current then ([], .okNoChange)
    else if menuOptions.contains target then
      ([.menuOpenClick, .menuItemClick target], .okSwitched)
    else ([.menuOpenClick], .invalidModelRaised)

/-- C9: `switch_model` is idempotent — requesting the currently displayed
model performs no menu interaction at all and succeeds; requesting a model
absent from the enumerated options raises the invalid-model error and
performs no model-selection click. -/
theorem switch_model_spec :
    (∀ displayed current options, getCurrentModel displayed = some current →
      switch_model displayed options current = ([], .okNoChange)) ∧
    (∀ displayed current options target,
      getCurrentModel displayed = some current → target ≠ current →
      options.contains target = false →
      switch_model displayed options target
        = ([.menuOpenClick], .invalidModelRaised) ∧
      ∀ name, SMEvent.menuItemClick name ∉ (switch_model displayed options target).1) := by
  constructor
  · intro displayed current options h
    simp [switch_model, h]
  · intro displayed current options target h hne hmem
    have hmem' : target ∉ options := by simpa using hmem
    have hsm : switch_model displayed options target
        = ([.menuOpenClick], .invalidModelRaised) := by
      simp [switch_model, h, hne, hmem']
    refine ⟨hsm, ?_⟩
    intro name
    rw [hsm]
    simp

/-- Witness for C9: current model `GPT-4o`; re-requesting it is a no-op, and
requesting an unlisted name raises with only the menu-open click. -/
theorem switch_model_spec_witness :
    switch_model "4o" ["GPT-4o", "GPT-4"] "GPT-4o" = ([], .okNoChange) ∧
    switch_model "4o" ["GPT-4o", "GPT-4"] "GPT-5"
      = ([.menuOpenClick], .invalidModelRaised) :=
  ⟨switch_model_spec.1 "4o" "GPT-4o" ["GPT-4o", "GPT-4"] (by decide),
    (switch_model_spec.2 "4o" "GPT-4o" ["GPT-4o", "GPT-4"] "GPT-5"
      (by decide) (by decide) (by decide)).1⟩

/-! ## Content-stability confirmation

Source: `SeleniumDriverHelper.check_element_stability` (lines 332-396).
Each `get_attribute('innerHTML')` call is one read of an observation stream
`obs : Nat → String` (the k-th read returns `obs k`); wall-clock time is kept
in whole seconds and each `time.sleep(check_period)` advances it by
`check_period`.  The `stability_start_time and ...` truthiness guard is
always true on the stable branch (a real `time.time()` is nonzero and the
start is set whenever `last_content` is), so it is not modelled separately.
Every read is logged as a `(time, content)` pair so the stability statement
can quantify over what was actually observed. -/

/-- Loop state of `check_element_stability`: `last_content`,
`stability_start_time`, the current wall-clock second, the index of the next
read, and the read log. -/
structure StabState : Type where
  last : Option String
  start : Nat
  time : Nat
  idx : Nat
  log : List (Nat × String)
  deriving DecidableEq, Repr

/-- Outcome of one loop body: continue polling, or return the element with
its stable content, return instant and full read log. -/
inductive StabOut : Type
  | again (s : StabState)
  | done (content : String) (t : Nat) (log : List (Nat × String))
  deriving DecidableEq, Repr

/-- One iteration of the polling loop: read the content; on any change reset
`last_content` and the confirmation clock; once the content has been
unchanged for at least `conf` seconds, read once more and return only if this
final read still matches, otherwise take a fresh read as the new baseline and
reset the clock again. -/
def stabStep (obs : Nat → String) (p conf : Nat) (s : StabState) : StabOut :=
  let cur := obs s.idx
  let log1 := s.log ++ [(s.time, cur)]
  if some cur ≠ s.last then
    .again ⟨some cur, s.time, s.time + p, s.idx + 1, log1⟩
  else
    if conf ≤ s.time - s.start then
      let cur2 := obs (s.idx + 1)
      let log2 := log1 ++ [(s.time, cur2)]
      if cur2 = cur then
        .done cur s.time log2
      else
        .again ⟨some (obs (s.idx + 2)), s.time, s.time + p, s.idx + 3,
          log2 ++ [(s.time, obs (s.idx + 2))]⟩
    else
      .again ⟨s.last, s.start, s.time + p, s.idx + 1, log1⟩

/-- The unbounded polling loop, run for at most `fuel` iterations; `none`
means the loop is still polling after `fuel` iterations. -/
def check_element_stability (obs : Nat → String) (p conf : Nat) :
    Nat → StabState → Option (String × Nat × List (Nat × String))
  | 0, _ => none
  | fuel + 1, s =>
    match stabStep obs p conf s with
    | .done c t log => some (c, t, log)
    | .again s2 => check_element_stability obs p conf fuel s2

/-- Initial loop state: `last_content = None`, clock at zero, nothing read. -/
def stabInit : StabState := ⟨none, 0, 0, 0, []⟩

/-- Invariant of the polling loop: the clock and log times never run ahead of
now, and whenever a baseline content is held it was read at the confirmation
clock's start and every read strictly after that start returned it. -/
def StabInv (s : StabState) : Prop :=
  s.start ≤ s.time ∧
  (∀ uv ∈ s.log, uv.1 ≤ s.time) ∧
  (∀ c, s.last = some c →
    (s.start, c) ∈ s.log ∧ ∀ uv ∈ s.log, s.start < uv.1 → uv.2 = c)

/-- The last element of a list extended by one element. -/
theorem getLast?_append_singleton {α : Type} (l : List α) (a : α) :
    (l ++ [a]).getLast? = some a :=
  List.getLast?_append_cons l a []

/-- `stabStep` preserves the invariant, and can only return a content that
has been observed unchanged for at least `conf` seconds and re-verified by a
final read at the return instant. -/
theorem stabStep_sound (obs : Nat → String) (p conf : Nat) (s : StabState)
    (hInv : StabInv s) :
    (∀ s2, stabStep obs p conf s = .again s2 → StabInv s2) ∧
    (∀ c t lg, stabStep obs p conf s = .done c t lg →
      ∃ st, st + conf ≤ t ∧ (st, c) ∈ lg ∧
        (∀ uv ∈ lg, st < uv.1 → uv.2 = c) ∧
        lg.getLast? = some (t, c)) := by
  obtain ⟨last, start, time, idx, log⟩ := s
  obtain ⟨hst, hlog, hlast⟩ := hInv
  dsimp only at hst hlog hlast
  constructor
  · intro s2 h2
    unfold stabStep at h2
    dsimp only at h2
    by_cases hch : some (obs idx) ≠ last
    · -- content changed: baseline and clock reset to now
      rw [if_pos hch] at h2
      injection h2 with h2
      subst h2
      refine ⟨Nat.le_add_right time p, ?_, ?_⟩
      · show ∀ uv ∈ log ++ [(time, obs idx)], uv.1 ≤ time + p
        intro uv huv
        rcases List.mem_append.mp huv with h | h
        · have := hlog uv h
          omega
        · rw [List.mem_singleton] at h
          subst h
          exact Nat.le_add_right time p
      · show ∀ c, some (obs idx) = some c →
          (time, c) ∈ log ++ [(time, obs idx)] ∧
            ∀ uv ∈ log ++ [(time, obs idx)], time < uv.1 → uv.2 = c
        intro c hc
        injection hc with hc
        subst hc
        refine ⟨by simp, ?_⟩
        intro uv huv hgt
        rcases List.mem_append.mp huv with h | h
        · have := hlog uv h
          omega
        · rw [List.mem_singleton] at h
          subst h
          rfl
    · rw [if_neg hch] at h2
      push_neg at hch
      by_cases hdur : conf ≤ time - start
      · rw [if_pos hdur] at h2
        by_cases heq : obs (idx + 1) = obs idx
        · -- stable, window elapsed, final read matched: the loop returns
          rw [if_pos heq] at h2
          exact StabOut.noConfusion h2
        · -- stable, window elapsed, final read changed: fresh baseline
          rw [if_neg heq] at h2
          injection h2 with h2
          subst h2
          refine ⟨Nat.le_add_right time p, ?_, ?_⟩
          · show ∀ uv ∈ log ++ [(time, obs idx)] ++ [(time, obs (idx + 1))]
                ++ [(time, obs (idx + 2))], uv.1 ≤ time + p
            intro uv huv
            rcases List.mem_append.mp huv with h | h
            · rcases List.mem_append.mp h with h' | h'
              · rcases List.mem_append.mp h' with h'' | h''
                · have := hlog uv h''
                  omega
                · rw [List.mem_singleton] at h''
                  subst h''
                  exact Nat.le_add_right time p
              · rw [List.mem_singleton] at h'
                subst h'
                exact Nat.le_add_right time p
            · rw [List.mem_singleton] at h
              subst h
              exact Nat.le_add_right time p
          · show ∀ c, some (obs (idx + 2)) = some c →
              (time, c) ∈ log ++ [(time, obs idx)] ++ [(time, obs (idx + 1))]
                  ++ [(time, obs (idx + 2))] ∧
                ∀ uv ∈ log ++ [(time, obs idx)] ++ [(time, obs (idx + 1))]
                  ++ [(time, obs (idx + 2))], time < uv.1 → uv.2 = c
            intro c hc
            injection hc with hc
            subst hc
            refine ⟨by simp, ?_⟩
            intro uv huv hgt
            have hb : uv.1 ≤ time := by
              rcases List.mem_append.mp huv with h | h
              · rcases List.mem_append.mp h with h' | h'
                · rcases List.mem_append.mp h' with h'' | h''
                  · exact hlog uv h''
                  · rw [List.mem_singleton] at h''
                    subst h''
                    exact le_refl time
                · rw [List.mem_singleton] at h'
                  subst h'
                  exact le_refl time
              · rw [List.mem_singleton] at h
                subst h
                exact le_refl time
            omega
      · -- stable but window not yet elapsed: clock kept running
        rw [if_neg hdur] at h2
        injection h2 with h2
        subst h2
        refine ⟨le_trans hst (Nat.le_add_right time p), ?_, ?_⟩
        · show ∀ uv ∈ log ++ [(time, obs idx)], uv.1 ≤ time + p
          intro uv huv
          rcases List.mem_append.mp huv with h | h
          · have := hlog uv h
            omega
          · rw [List.mem_singleton] at h
            subst h
            exact Nat.le_add_right time p
        · show ∀ c, last = some c →
            (start, c) ∈ log ++ [(time, obs idx)] ∧
              ∀ uv ∈ log ++ [(time, obs idx)], start < uv.1 → uv.2 = c
          intro c hc
          obtain ⟨hmem, hwin⟩ := hlast c hc
          refine ⟨List.mem_append.mpr (Or.inl hmem), ?_⟩
          intro uv huv hgt
          rcases List.mem_append.mp huv with h | h
          · exact hwin uv h hgt
          · rw [List.mem_singleton] at h
            subst h
            exact Option.some.inj (hch.trans hc)
  · intro c t lg hdone
    unfold stabStep at hdone
    dsimp only at hdone
    by_cases hch : some (obs idx) ≠ last
    · rw [if_pos hch] at hdone
      exact StabOut.noConfusion hdone
    · rw [if_neg hch] at hdone
      push_neg at hch
      by_cases hdur : conf ≤ time - start
      · rw [if_pos hdur] at hdone
        by_cases heq : obs (idx + 1) = obs idx
        · -- the returning arm
          rw [if_pos heq] at hdone
          injection hdone with h1 h2 h3
          subst h1
          subst h2
          subst h3
          obtain ⟨hmem, hwin⟩ := hlast (obs idx) hch.symm
          refine ⟨start, by omega, ?_, ?_, ?_⟩
          · exact List.mem_append.mpr
              (Or.inl (List.mem_append.mpr (Or.inl hmem)))
          · intro uv huv hgt
            rcases List.mem_append.mp huv with h | h
            · rcases List.mem_append.mp h with h' | h'
              · exact hwin uv h' hgt
              · rw [List.mem_singleton] at h'
                subst h'
                rfl
            · rw [List.mem_singleton] at h
              subst h
              exact heq
          · rw [getLast?_append_singleton, heq]
        · rw [if_neg heq] at hdone
          exact StabOut.noConfusion hdone
      · rw [if_neg hdur] at hdone
        exact StabOut.noConfusion hdone

/-- Soundness of the whole polling loop, by induction on the fuel. -/
theorem check_element_stability_sound (obs : Nat → String) (p conf : Nat) :
    ∀ fuel s, StabInv s →
      ∀ c t lg, check_element_stability obs p conf fuel s = some (c, t, lg) →
      ∃ st, st + conf ≤ t ∧ (st, c) ∈ lg ∧
        (∀ uv ∈ lg, st < uv.1 → uv.2 = c) ∧
        lg.getLast? = some (t, c) := by
  intro fuel
  induction fuel with
  | zero =>
    intro s _ c t lg h
    exact absurd h (by simp [check_element_stability])
  | succ n ih =>
    intro s hInv c t lg h
    unfold check_element_stability at h
    cases hstep : stabStep obs p conf s with
    | done c2 t2 lg2 =>
      rw [hstep] at h
      have h3 : c2 = c ∧ t2 = t ∧ lg2 = lg := by simpa using h
      obtain ⟨ha, hb, hc⟩ := h3
      subst ha
      subst hb
      subst hc
      exact (stabStep_sound obs p conf s hInv).2 _ _ _ hstep
    | again s2 =>
      rw [hstep] at h
      exact ih s2 ((stabStep_sound obs p conf s hInv).1 s2 hstep) _ _ _ h

/-- C7: `check_element_stability` returns an element only after its
`innerHTML` was observed unchanged over a window of at least
`confirmation_time` seconds of polling, re-verified by a final read at the
return instant; any observed change — also one strictly within the window at
the final re-read — resets the confirmation clock to now. -/
theorem check_element_stability_spec (obs : Nat → String) (p conf : Nat) :
    (∀ fuel c t lg,
      check_element_stability obs p conf fuel stabInit = some (c, t, lg) →
      ∃ st, st + conf ≤ t ∧ (st, c) ∈ lg ∧
        (∀ uv ∈ lg, st < uv.1 → uv.2 = c) ∧
        lg.getLast? = some (t, c)) ∧
    (∀ s : StabState, some (obs s.idx) ≠ s.last →
      stabStep obs p conf s = .again ⟨some (obs s.idx), s.time, s.time + p,
        s.idx + 1, s.log ++ [(s.time, obs s.idx)]⟩) ∧
    (∀ s : StabState, some (obs s.idx) = s.last → conf ≤ s.time - s.start →
      obs (s.idx + 1) ≠ obs s.idx →
      stabStep obs p conf s = .again ⟨some (obs (s.idx + 2)), s.time,
        s.time + p, s.idx + 3,
        s.log ++ [(s.time, obs s.idx)] ++ [(s.time, obs (s.idx + 1))]
          ++ [(s.time, obs (s.idx + 2))]⟩) ∧
    (∀ s : StabState, some (obs s.idx) = s.last → conf ≤ s.time - s.start →
      obs (s.idx + 1) = obs s.idx →
      stabStep obs p conf s = .done (obs s.idx) s.time
        (s.log ++ [(s.time, obs s.idx)] ++ [(s.time, obs (s.idx + 1))])) := by
  refine ⟨?_, ?_, ?_, ?_⟩
  · have hInv : StabInv stabInit :=
      ⟨Nat.le_refl 0, by simp [stabInit], fun c hc => by simp [stabInit] at hc⟩
    intro fuel c t lg h
    exact check_element_stability_sound obs p conf fuel stabInit hInv c t lg h
  · intro s h
    unfold stabStep
    dsimp only
    rw [if_pos h]
  · intro s h hdur hne
    unfold stabStep
    dsimp only
    rw [if_neg (fun hne2 => hne2 h), if_pos hdur, if_neg hne]
  · intro s h hdur heq
    unfold stabStep
    dsimp only
    rw [if_neg (fun hne2 => hne2 h), if_pos hdur, if_pos heq]

/-- Witness for C7: a constant feed with `check_period = 1` and
`confirmation_time = 2` returns after three polls plus the confirming read,
and the soundness conclusion holds of that concrete run. -/
theorem check_element_stability_spec_witness :
    (check_element_stability (fun _ => "x") 1 2 5 stabInit
      = some ("x", 2, [(0, "x"), (1, "x"), (2, "x"), (2, "x")])) ∧
    ∃ st, st + 2 ≤ 2 ∧ (st, "x") ∈ [(0, "x"), (1, "x"), (2, "x"), (2, "x")] ∧
      (∀ uv ∈ ([(0, "x"), (1, "x"), (2, "x"), (2, "x")] : List (Nat × String)),
        st < uv.1 → uv.2 = "x") ∧
      ([(0, "x"), (1, "x"), (2, "x"), (2, "x")] : List (Nat × String)).getLast?
        = some (2, "x") :=
  ⟨by decide,
    (check_element_stability_spec (fun _ => "x") 1 2).1 5 "x" 2
      [(0, "x"), (1, "x"), (2, "x"), (2, "x")] (by decide)⟩

end SeleniumChatGPT


